import Mathlib

/-!
The program myfat.c : superblock geometry and image formatter

A shallow embedding of `src/myfat.c`.

* Fixed-width unsigned integers are natural numbers; every place where the C
  code converts or computes in a fixed width carries an explicit `% 2 ^ w`.
* `size_t` is the 64-bit unsigned type of the LP64 targets the program is built
  for (`size_t_bits`); `sizeof(fatent) = sizeof(uint32_t) = 4`.
* A packed record is a Lean structure with one field per C field, in
  declaration order; byte arrays are lists of bytes.
* The output file is the list of bytes written to it so far.
-/

namespace MyFat

/-! ## Data model -/

/-- Width in bits of `size_t`, the type of `sizeof(fatent)` and therefore of the
arithmetic in `hdr->total * sizeof(fatent) / 512 + 1` (LP64: 64 bits). -/
def size_t_bits : Nat := 64

/-- The C declaration `typedef uint32_t fatent;` gives `sizeof(fatent) = 4`. -/
def sizeof_fatent : Nat := 4

/-- The packed record `header` (lines 3-34), one field per C field, in
declaration order. -/
structure header where
  /-- Field `uint8_t boot[3]`. -/
  boot : List Nat
  /-- Field `uint8_t name[8]`. -/
  name : List Nat
  /-- Field `uint16_t bps`. -/
  bps : Nat
  /-- Field `uint8_t spc`. -/
  spc : Nat
  /-- Field `uint16_t rsvd`. -/
  rsvd : Nat
  /-- Field `uint8_t nfats`. -/
  nfats : Nat
  /-- Field `uint16_t _root`. -/
  _root : Nat
  /-- Field `uint16_t _n0`. -/
  _n0 : Nat
  /-- Field `uint8_t media`. -/
  media : Nat
  /-- Field `uint8_t _n1[2]`. -/
  _n1 : List Nat
  /-- Field `uint16_t _n2`. -/
  _n2 : Nat
  /-- Field `uint16_t _n3`. -/
  _n3 : Nat
  /-- Field `uint32_t _n4`. -/
  _n4 : Nat
  /-- Field `uint32_t total`. -/
  total : Nat
  /-- Field `uint32_t spf`. -/
  spf : Nat
  /-- Field `uint16_t flags`. -/
  flags : Nat
  /-- Field `uint16_t ver`. -/
  ver : Nat
  /-- Field `uint32_t root`. -/
  root : Nat
  /-- Field `uint16_t fsinfo`. -/
  fsinfo : Nat
  /-- Field `uint16_t bkup`. -/
  bkup : Nat
  /-- Field `uint64_t rsvd1`. -/
  rsvd1 : Nat
  /-- Field `uint32_t rsvd2`. -/
  rsvd2 : Nat
  /-- Field `uint8_t drv`. -/
  drv : Nat
  /-- Field `uint8_t rsvd3`. -/
  rsvd3 : Nat
  /-- Field `uint8_t sig`. -/
  sig : Nat
  /-- Field `uint32_t volid`. -/
  volid : Nat
  /-- Field `uint8_t label[11]`. -/
  label : List Nat
  /-- Field `uint8_t type[8]`. -/
  type : List Nat
  /-- Field `uint8_t info[420]`. -/
  info : List Nat
  /-- Field `uint16_t sign`. -/
  sign : Nat
deriving DecidableEq, Repr

/-- The effect of `memset(hdr, 0, sizeof(header))`: every byte of the record is
zero, so every scalar is 0 and every array is all zero, whatever `hdr` held. -/
def memset_zero (_hdr : header) : header :=
  { boot := List.replicate 3 0
    name := List.replicate 8 0
    bps := 0, spc := 0, rsvd := 0, nfats := 0, _root := 0, _n0 := 0, media := 0
    _n1 := List.replicate 2 0
    _n2 := 0, _n3 := 0, _n4 := 0, total := 0, spf := 0, flags := 0, ver := 0
    root := 0, fsinfo := 0, bkup := 0, rsvd1 := 0, rsvd2 := 0, drv := 0
    rsvd3 := 0, sig := 0, volid := 0
    label := List.replicate 11 0
    type := List.replicate 8 0
    info := List.replicate 420 0
    sign := 0 }

/-- The effect of `memcpy(dst, src, n)` on a byte array `dst`: its first `n`
bytes become the first `n` bytes of `src`. -/
def memcpy (dst src : List Nat) (n : Nat) : List Nat :=
  src.take n ++ dst.drop n

/-- The bytes of a C string literal (without the terminating NUL). -/
def c_string (s : String) : List Nat :=
  s.toList.map (fun c => c.toNat)

/-! ## `initialise_header` (lines 53-74) -/

/-- The function `initialise_header(header* hdr, uint64_t size)`, statement by
statement. `hdr` is the record `*hdr` on entry, the result is `*hdr` on return;
`size` is the `uint64_t` argument. -/
def initialise_header (hdr : header) (size : Nat) : header :=
  -- memset(hdr, 0, sizeof(header));
  let hdr := memset_zero hdr
  -- hdr->boot[0] = 0xEB; hdr->boot[1] = 0xFE; hdr->boot[2] = 0x90;
  let hdr := { hdr with boot := hdr.boot.set 0 0xEB }
  let hdr := { hdr with boot := hdr.boot.set 1 0xFE }
  let hdr := { hdr with boot := hdr.boot.set 2 0x90 }
  -- memcpy(hdr->name, "MYFATFS ", 8);
  let hdr := { hdr with name := memcpy hdr.name (c_string "MYFATFS ") 8 }
  -- hdr->bps = 512; hdr->spc = 1; hdr->nfats = 1; hdr->media = 0xFF;
  let hdr := { hdr with bps := 512 % 2 ^ 16 }
  let hdr := { hdr with spc := 1 % 2 ^ 8 }
  let hdr := { hdr with nfats := 1 % 2 ^ 8 }
  let hdr := { hdr with media := 0xFF % 2 ^ 8 }
  -- hdr->total = (uint32_t) (size / 512);
  let hdr := { hdr with total := (size / 512) % 2 ^ 32 }
  -- hdr->spf = (hdr->total * sizeof(fatent)) / 512 + 1;
  --   the arithmetic is in size_t, the store converts to uint32_t
  let hdr := { hdr with
    spf := (((hdr.total * sizeof_fatent) % 2 ^ size_t_bits / 512 + 1)
              % 2 ^ size_t_bits) % 2 ^ 32 }
  -- hdr->sign = 0xAA55;
  let hdr := { hdr with sign := 0xAA55 % 2 ^ 16 }
  hdr

/-- The value `ceil(a / b)` of the superblock invariant as the specification
words it, for comparison with the formula in the code. -/
def ceil_div (a b : Nat) : Nat := (a + b - 1) / b

/-- The error kinds a geometry computation could report; the specification
names `InvalidSize` for a rejected image size. -/
inductive geometry_error where
  | InvalidSize
deriving DecidableEq, Repr

/-- A call of `initialise_header` seen as a fallible computation. The C function
returns `void`, tests nothing and has one path to its closing brace: every call
ends normally, leaving the populated header. -/
def initialise_header_outcome (hdr : header) (size : Nat) :
    Except geometry_error header :=
  Except.ok (initialise_header hdr size)

/-- A header holding arbitrary non-zero bytes, standing for the uninitialised
`header hdr;` on the stack of `main`. -/
def stale_header : header :=
  { boot := [1, 2, 3]
    name := [4, 5, 6, 7, 8, 9, 10, 11]
    bps := 12, spc := 13, rsvd := 14, nfats := 15, _root := 16, _n0 := 17, media := 18
    _n1 := [19, 20]
    _n2 := 21, _n3 := 22, _n4 := 23, total := 24, spf := 25, flags := 26, ver := 27
    root := 28, fsinfo := 29, bkup := 30, rsvd1 := 31, rsvd2 := 32, drv := 33
    rsvd3 := 34, sig := 35, volid := 36
    label := List.replicate 11 37
    type := List.replicate 8 38
    info := List.replicate 420 39
    sign := 40 }

/-! ## Record layout (packed structs, lines 3-49) -/

/-- One member of a packed struct: its name, the size of its element type in
bytes and its element count (1 for a scalar). -/
structure c_field where
  /-- Member name. -/
  name : String
  /-- Size of the element type in bytes. -/
  width : Nat
  /-- Number of elements. -/
  count : Nat
deriving DecidableEq, Repr

/-- The members of `header` in declaration order. -/
def header_fields : List c_field :=
  [ ⟨"boot", 1, 3⟩, ⟨"name", 1, 8⟩, ⟨"bps", 2, 1⟩, ⟨"spc", 1, 1⟩, ⟨"rsvd", 2, 1⟩,
    ⟨"nfats", 1, 1⟩, ⟨"_root", 2, 1⟩, ⟨"_n0", 2, 1⟩, ⟨"media", 1, 1⟩, ⟨"_n1", 1, 2⟩,
    ⟨"_n2", 2, 1⟩, ⟨"_n3", 2, 1⟩, ⟨"_n4", 4, 1⟩, ⟨"total", 4, 1⟩, ⟨"spf", 4, 1⟩,
    ⟨"flags", 2, 1⟩, ⟨"ver", 2, 1⟩, ⟨"root", 4, 1⟩, ⟨"fsinfo", 2, 1⟩, ⟨"bkup", 2, 1⟩,
    ⟨"rsvd1", 8, 1⟩, ⟨"rsvd2", 4, 1⟩, ⟨"drv", 1, 1⟩, ⟨"rsvd3", 1, 1⟩, ⟨"sig", 1, 1⟩,
    ⟨"volid", 4, 1⟩, ⟨"label", 1, 11⟩, ⟨"type", 1, 8⟩, ⟨"info", 1, 420⟩, ⟨"sign", 2, 1⟩ ]

/-- The members of `dirent` in declaration order. -/
def dirent_fields : List c_field :=
  [ ⟨"name", 1, 64⟩, ⟨"atime", 8, 1⟩, ⟨"mtime", 8, 1⟩, ⟨"ctime", 8, 1⟩,
    ⟨"attributes", 8, 1⟩, ⟨"size", 8, 1⟩, ⟨"cluster", 4, 1⟩, ⟨"hash", 8, 1⟩,
    ⟨"hash_store", 8, 1⟩, ⟨"crc32", 4, 1⟩ ]

/-- Size of a packed struct: with `__attribute__((packed))` there is no padding,
so the size is the sum of the member sizes. -/
def sizeof_packed (fs : List c_field) : Nat :=
  (fs.map (fun f => f.width * f.count)).sum

/-- Byte offset of the member called `n` in a packed struct: the sizes of the
members declared before it. -/
def offsetof (fs : List c_field) (n : String) : Option Nat :=
  match fs with
  | [] => none
  | f :: rest =>
    if f.name = n then some 0
    else (offsetof rest n).map (fun o => f.width * f.count + o)

/-- The value of `sizeof(header)`. -/
def sizeof_header : Nat := sizeof_packed header_fields

/-- The value of `sizeof(dirent)`. -/
def sizeof_dirent : Nat := sizeof_packed dirent_fields

/-! ## Object representation -/

/-- The `w` bytes of an unsigned integer `v` of width `w` bytes, least
significant byte first (the byte order of the little-endian targets the image
format is defined on). -/
def le_bytes (w v : Nat) : List Nat :=
  (List.range w).map (fun k => v / 256 ^ k % 256)

/-- The bytes of a `header` object in memory: its members in declaration order,
without padding. -/
def header_bytes (h : header) : List Nat :=
  h.boot ++ h.name ++ le_bytes 2 h.bps ++ le_bytes 1 h.spc ++ le_bytes 2 h.rsvd
    ++ le_bytes 1 h.nfats ++ le_bytes 2 h._root ++ le_bytes 2 h._n0
    ++ le_bytes 1 h.media ++ h._n1 ++ le_bytes 2 h._n2 ++ le_bytes 2 h._n3
    ++ le_bytes 4 h._n4 ++ le_bytes 4 h.total ++ le_bytes 4 h.spf
    ++ le_bytes 2 h.flags ++ le_bytes 2 h.ver ++ le_bytes 4 h.root
    ++ le_bytes 2 h.fsinfo ++ le_bytes 2 h.bkup ++ le_bytes 8 h.rsvd1
    ++ le_bytes 4 h.rsvd2 ++ le_bytes 1 h.drv ++ le_bytes 1 h.rsvd3
    ++ le_bytes 1 h.sig ++ le_bytes 4 h.volid ++ h.label ++ h.type ++ h.info
    ++ le_bytes 2 h.sign

/-! ## `main` (lines 85-103) -/

/-- The effect of `fwrite(ptr, size, nmemb, file)` on the bytes of the file:
`size * nmemb` bytes of the object at `ptr` are appended. -/
def fwrite (obj : List Nat) (size nmemb : Nat) (file : List Nat) : List Nat :=
  file ++ obj.take (size * nmemb)

/-- The loop of lines 95-96,
`for (uint32_t i = 0; i < hdr.total; i++) fwrite(&t, 4, 1, file);`
entered with loop counter `i`. Each unit of fuel pays for one evaluation of the
loop test; `none` means the fuel ran out. -/
def main_fat_loop (fuel total t i : Nat) (file : List Nat) : Option (List Nat) :=
  match fuel with
  | 0 => none
  | fuel + 1 =>
    if i < total then
      main_fat_loop fuel total t ((i + 1) % 2 ^ 32) (fwrite (le_bytes 4 t) 4 1 file)
    else some file

/-- The inner loop of lines 98-100,
`for (uint16_t j = 0; j < 512; j += 4) { fwrite(&t, 4, 1, file); }`
entered with loop counter `j`. -/
def main_sector_loop (fuel t j : Nat) (file : List Nat) : Option (List Nat) :=
  match fuel with
  | 0 => none
  | fuel + 1 =>
    if j < 512 then
      main_sector_loop fuel t ((j + 4) % 2 ^ 16) (fwrite (le_bytes 4 t) 4 1 file)
    else some file

/-- The outer loop of lines 97-101,
`for (uint32_t i = 0; i < hdr.total; i++) { <inner loop> }`
entered with loop counter `i`. -/
def main_data_loop (fuel total t i : Nat) (file : List Nat) : Option (List Nat) :=
  match fuel with
  | 0 => none
  | fuel + 1 =>
    if i < total then
      match main_sector_loop fuel t 0 file with
      | none => none
      | some file => main_data_loop fuel total t ((i + 1) % 2 ^ 32) file
    else some file

/-- How a run of `main` ends. -/
inductive main_outcome where
  /-- A `BUG_IF` fired: message printed, `exit(1)`. -/
  | bug_exit
  /-- The branch `argc < 2`: `return 0` with no file opened. -/
  | no_output
  /-- The final `return 0`, with the bytes written to the file `argv[1]`. -/
  | written (image : List Nat)
deriving DecidableEq, Repr

/-- The header of lines 90-91 of `main`:
`header hdr; initialise_header(&hdr, (1 << 20) * (1 << 9));`
where `hdr` is the uninitialised content of the local variable. The argument
is computed in `int`; its value `2 ^ 29` fits and converts to `uint64_t`
unchanged. -/
def main_header (hdr : header) : header :=
  initialise_header hdr ((1 <<< 20) * (1 <<< 9))

/-- The header and the bytes of the file after lines 90-96 of `main`: the
header is initialised, the file is opened empty (`"wb"`), the 512 header bytes
are written and then the loop of FAT entries runs. -/
def main_after_fat (hdr : header) (fuel : Nat) : Option (header × List Nat) :=
  let hdr := main_header hdr
  let file : List Nat := []
  let file := fwrite (header_bytes hdr) 512 1 file
  let t : Nat := 0
  (main_fat_loop fuel hdr.total t 0 file).map (fun file => (hdr, file))

/-- The function `main`: `argc` is its first argument, `hdr` the uninitialised
content of its local `header hdr;`; the result is `none` when the fuel does not
cover the loops. The file `argv[1]` is taken to open successfully. -/
def main (argc : Int) (hdr : header) (fuel : Nat) : Option main_outcome :=
  if sizeof_header != 512 then some main_outcome.bug_exit
  else if sizeof_dirent != 128 then some main_outcome.bug_exit
  else if argc < 2 then some main_outcome.no_output
  else
    match main_after_fat hdr fuel with
    | none => none
    | some (hdr, file) =>
      let t : Nat := 0
      match main_data_loop fuel hdr.total t 0 file with
      | none => none
      | some file => some (main_outcome.written file)

/-- The unsigned integer whose bytes, least significant first, are `bs`: the
value a little-endian reader gets back from the bytes `le_bytes` produces. -/
def le_value (bs : List Nat) : Nat :=
  bs.foldr (fun b acc => b + 256 * acc) 0

/-! ## Basic facts about `initialise_header` -/

theorem initialise_header_total (hdr : header) (size : Nat) :
    (initialise_header hdr size).total = (size / 512) % 2 ^ 32 := rfl

theorem initialise_header_spf (hdr : header) (size : Nat) :
    (initialise_header hdr size).spf
      = ((((size / 512) % 2 ^ 32 * 4) % 2 ^ 64 / 512 + 1) % 2 ^ 64) % 2 ^ 32 := rfl

/-- The `size_t` product and the final conversion never wrap: the stored `spf`
is `total / 128 + 1`. -/
theorem initialise_header_spf_eq (hdr : header) (size : Nat) :
    (initialise_header hdr size).spf = (initialise_header hdr size).total / 128 + 1 := by
  rw [initialise_header_spf, initialise_header_total]
  have h : (size / 512) % 2 ^ 32 < 2 ^ 32 := Nat.mod_lt _ (by norm_num)
  generalize (size / 512) % 2 ^ 32 = t at h
  norm_num at h ⊢
  omega

theorem le_bytes_length (w v : Nat) : (le_bytes w v).length = w := by
  simp [le_bytes]

theorem header_bytes_length (h : header) :
    (header_bytes h).length
      = h.boot.length + h.name.length + h._n1.length + h.label.length
          + h.type.length + h.info.length + 60 := by
  simp only [header_bytes, List.length_append, le_bytes_length]
  omega

theorem initialise_header_bytes_length (hdr : header) (size : Nat) :
    (header_bytes (initialise_header hdr size)).length = 512 := by
  rw [header_bytes_length]
  have h1 : (initialise_header hdr size).boot = [0xEB, 0xFE, 0x90] := rfl
  have h2 : (initialise_header hdr size).name = [77, 89, 70, 65, 84, 70, 83, 32] := rfl
  have h3 : (initialise_header hdr size)._n1 = List.replicate 2 0 := rfl
  have h4 : (initialise_header hdr size).label = List.replicate 11 0 := rfl
  have h5 : (initialise_header hdr size).type = List.replicate 8 0 := rfl
  have h6 : (initialise_header hdr size).info = List.replicate 420 0 := rfl
  rw [h1, h2, h3, h4, h5, h6]
  simp only [List.length_replicate, List.length_cons, List.length_nil]


/-! ## The loops of `main` -/

theorem fwrite_fatent_zero (file : List Nat) :
    fwrite (le_bytes 4 0) 4 1 file = file ++ List.replicate 4 0 := by
  simp [fwrite, le_bytes, List.range_succ, List.replicate]

theorem replicate_zero_step (file : List Nat) (n k : Nat) :
    file ++ List.replicate k 0 ++ List.replicate n 0 = file ++ List.replicate (n + k) 0 := by
  rw [List.append_assoc, ← List.replicate_add, Nat.add_comm]

/-- With fuel for every loop test, the loop of FAT entries ends, having appended
four zero bytes for each remaining value of the counter. -/
theorem main_fat_loop_eq (fuel total : Nat) (htotal : total < 2 ^ 32) :
    ∀ (i : Nat) (file : List Nat), i ≤ total → total - i < fuel →
      main_fat_loop fuel total 0 i file
        = some (file ++ List.replicate (4 * (total - i)) 0) := by
  induction fuel with
  | zero => intro i file _ h; omega
  | succ fuel ih =>
    intro i file hi hfuel
    unfold main_fat_loop
    by_cases hlt : i < total
    · have hwrap : (i + 1) % 2 ^ 32 = i + 1 := Nat.mod_eq_of_lt (by omega)
      rw [if_pos hlt, hwrap, ih (i + 1) _ (by omega) (by omega), fwrite_fatent_zero,
        replicate_zero_step]
      congr 3
      omega
    · have hz : total - i = 0 := by omega
      rw [if_neg hlt, hz]
      simp

/-- With fuel for every loop test, the inner loop ends, having appended the
zero bytes of the rest of one sector. -/
theorem main_sector_loop_eq (fuel : Nat) :
    ∀ (j : Nat) (file : List Nat), j ≤ 512 → j % 4 = 0 → (512 - j) / 4 < fuel →
      main_sector_loop fuel 0 j file = some (file ++ List.replicate (512 - j) 0) := by
  induction fuel with
  | zero => intro j file _ _ h; omega
  | succ fuel ih =>
    intro j file hj hmod hfuel
    unfold main_sector_loop
    by_cases hlt : j < 512
    · have hwrap : (j + 4) % 2 ^ 16 = j + 4 := Nat.mod_eq_of_lt (by omega)
      rw [if_pos hlt, hwrap, ih (j + 4) _ (by omega) (by omega) (by omega),
        fwrite_fatent_zero, replicate_zero_step]
      congr 3
      omega
    · have hz : 512 - j = 0 := by omega
      rw [if_neg hlt, hz]
      simp

/-- With fuel for every loop test, the outer loop ends, having appended 512
zero bytes for each remaining value of the counter. -/
theorem main_data_loop_eq (fuel total : Nat) (htotal : total < 2 ^ 32) :
    ∀ (i : Nat) (file : List Nat), i ≤ total → total - i + 129 ≤ fuel →
      main_data_loop fuel total 0 i file
        = some (file ++ List.replicate (512 * (total - i)) 0) := by
  induction fuel with
  | zero => intro i file _ h; omega
  | succ fuel ih =>
    intro i file hi hfuel
    unfold main_data_loop
    by_cases hlt : i < total
    · have hwrap : (i + 1) % 2 ^ 32 = i + 1 := Nat.mod_eq_of_lt (by omega)
      rw [if_pos hlt, hwrap,
        main_sector_loop_eq fuel 0 file (by omega) (by omega) (by omega)]
      simp only []
      rw [ih (i + 1) _ (by omega) (by omega), replicate_zero_step]
      congr 3
      omega
    · have hz : total - i = 0 := by omega
      rw [if_neg hlt, hz]
      simp

theorem main_header_total (hdr : header) : (main_header hdr).total = 1048576 := rfl

theorem main_header_spf (hdr : header) : (main_header hdr).spf = 8193 := by
  have ht := main_header_total hdr
  unfold main_header at ht ⊢
  rw [initialise_header_spf_eq, ht]

theorem main_header_nfats (hdr : header) : (main_header hdr).nfats = 1 := rfl

theorem main_header_bytes_length (hdr : header) :
    (header_bytes (main_header hdr)).length = 512 :=
  initialise_header_bytes_length _ _

theorem fwrite_header (h : header) (hlen : (header_bytes h).length = 512) :
    fwrite (header_bytes h) 512 1 [] = header_bytes h := by
  unfold fwrite
  rw [List.nil_append, List.take_of_length_le (by omega)]

/-- The file after the header and the FAT entries have been written. -/
theorem main_after_fat_eq (hdr : header) (fuel : Nat) (hfuel : 1048576 < fuel) :
    main_after_fat hdr fuel
      = some (main_header hdr,
          header_bytes (main_header hdr) ++ List.replicate 4194304 0) := by
  have hn : 4 * (1048576 - 0) = 4194304 := by norm_num
  unfold main_after_fat
  simp only []
  rw [fwrite_header _ (main_header_bytes_length _), main_header_total,
    main_fat_loop_eq fuel 1048576 (by norm_num) 0 _ (by omega) (by omega), hn,
    Option.map_some']

/-- The whole image: `main` ends normally once the fuel covers the loops. -/
theorem main_eq (argc : Int) (hdr : header) (fuel : Nat) (hargc : 2 ≤ argc)
    (hfuel : 1048576 + 129 ≤ fuel) :
    main argc hdr fuel
      = some (main_outcome.written
          (header_bytes (main_header hdr)
            ++ List.replicate 4194304 0 ++ List.replicate 536870912 0)) := by
  have hn : 512 * (1048576 - 0) = 536870912 := by norm_num
  unfold main
  have h1 : (sizeof_header != 512) = false := by decide
  have h2 : (sizeof_dirent != 128) = false := by decide
  rw [h1, h2, main_after_fat_eq hdr fuel (by omega)]
  simp only [Bool.false_eq_true, if_false, if_neg (not_lt.mpr hargc)]
  rw [main_header_total,
    main_data_loop_eq fuel 1048576 (by norm_num) 0 _ (by omega) (by omega), hn]

/-- The definition `ceil_div` is the ceiling of the exact quotient. -/
theorem ceil_div_eq_ceil (a b : Nat) (hb : 0 < b) :
    ceil_div a b = ⌈(a : ℚ) / (b : ℚ)⌉₊ := by
  refine eq_of_forall_ge_iff (fun m => ?_)
  have hq : (0 : ℚ) < (b : ℚ) := by exact_mod_cast hb
  have hcast : ((a : ℚ) ≤ (m : ℚ) * (b : ℚ)) ↔ a ≤ m * b := by exact_mod_cast Iff.rfl
  unfold ceil_div
  rw [Nat.ceil_le, div_le_iff₀ hq, hcast, ← Nat.lt_succ_iff, Nat.div_lt_iff_lt_mul hb,
    Nat.succ_mul]
  omega

/-! ## The claims -/

/-- C1: when `size / 512` fits in 32 bits (which makes `size` a 64-bit value),
`initialise_header` stores `total = size / 512` and
`spf = total * 4 / 512 + 1`; the product is not reduced modulo `2 ^ 32`, so the
stored `spf` is `total / 128 + 1` and is below `2 ^ 32`, and every 32-bit
`total` `t` is stored (for `size = t * 512`) with `spf = t / 128 + 1`. -/
theorem initialise_header_geometry (hdr : header) (size : Nat)
    (hfit : size / 512 < 2 ^ 32) :
    size < 2 ^ 64
      ∧ (initialise_header hdr size).total = size / 512
      ∧ (initialise_header hdr size).spf
          = (initialise_header hdr size).total * 4 / 512 + 1
      ∧ (initialise_header hdr size).spf
          = (initialise_header hdr size).total / 128 + 1
      ∧ (initialise_header hdr size).spf < 2 ^ 32
      ∧ ∀ t : Nat, t < 2 ^ 32 →
          (initialise_header hdr (t * 512)).total = t
            ∧ (initialise_header hdr (t * 512)).spf = t / 128 + 1
            ∧ t / 128 + 1 < 2 ^ 32 := by
  have htot : (initialise_header hdr size).total = size / 512 := by
    rw [initialise_header_total, Nat.mod_eq_of_lt hfit]
  refine ⟨by omega, htot, ?_, initialise_header_spf_eq hdr size, ?_, ?_⟩
  · rw [initialise_header_spf_eq]; omega
  · rw [initialise_header_spf_eq, htot]; omega
  · intro t ht
    have h1 : (initialise_header hdr (t * 512)).total = t := by
      rw [initialise_header_total, Nat.mul_div_cancel _ (by norm_num), Nat.mod_eq_of_lt ht]
    refine ⟨h1, ?_, by omega⟩
    rw [initialise_header_spf_eq, h1]

/-- Witness of C1 at the 1 MiB request. -/
theorem initialise_header_geometry_witness :
    1048576 / 512 < 2 ^ 32
      ∧ (initialise_header stale_header 1048576).total = 1048576 / 512
      ∧ (initialise_header stale_header 1048576).spf
          = (initialise_header stale_header 1048576).total * 4 / 512 + 1
      ∧ (initialise_header stale_header 1048576).spf
          = (initialise_header stale_header 1048576).total / 128 + 1
      ∧ (initialise_header stale_header 1048576).spf < 2 ^ 32 :=
  ⟨by norm_num,
    (initialise_header_geometry stale_header 1048576 (by norm_num)).2.1,
    (initialise_header_geometry stale_header 1048576 (by norm_num)).2.2.1,
    (initialise_header_geometry stale_header 1048576 (by norm_num)).2.2.2.1,
    (initialise_header_geometry stale_header 1048576 (by norm_num)).2.2.2.2.1⟩

/-- C2 fails as stated: `2 ^ 41` is a positive multiple of 512 below `2 ^ 64`,
the stored `total` is 0 and `2 ^ 41 < (0 + 1) * 512` is false. -/
theorem total_sectors_upper_bound_fails :
    0 < 2 ^ 41 ∧ 2 ^ 41 % 512 = 0 ∧ 2 ^ 41 < 2 ^ 64
      ∧ (initialise_header stale_header (2 ^ 41)).total = 0
      ∧ ¬ (2 ^ 41 < ((initialise_header stale_header (2 ^ 41)).total + 1) * 512) := by
  decide

/-- C2 (amended): for every `size` that is a positive multiple of 512 below
`2 ^ 64`, the stored `total` satisfies `total * 512 <= size`, and
`size < (total + 1) * 512` holds exactly when `size < 2 ^ 41`, that is when
`size / 512` fits the 32-bit field. -/
theorem total_sectors_bounds (hdr : header) (size : Nat)
    (hpos : 0 < size) (halign : size % 512 = 0) (h64 : size < 2 ^ 64) :
    (initialise_header hdr size).total * 512 ≤ size
      ∧ (size < ((initialise_header hdr size).total + 1) * 512 ↔ size < 2 ^ 41) := by
  rw [initialise_header_total]
  omega

/-- Witness of C2 (amended) at the 1 MiB request. -/
theorem total_sectors_bounds_witness :
    (initialise_header stale_header 1048576).total * 512 ≤ 1048576
      ∧ (1048576 < ((initialise_header stale_header 1048576).total + 1) * 512
          ↔ 1048576 < 2 ^ 41) :=
  total_sectors_bounds stale_header 1048576 (by decide) (by decide) (by decide)

/-- C3: for `size = 1048576` (1 MiB) and any prior header content the result
has `total = 2048`, `spf = 17` and `sign = 0xAA55`. -/
theorem initialise_header_one_mib (hdr : header) :
    (initialise_header hdr 1048576).total = 2048
      ∧ (initialise_header hdr 1048576).spf = 17
      ∧ (initialise_header hdr 1048576).sign = 0xAA55 := by
  have ht : (initialise_header hdr 1048576).total = 2048 := rfl
  refine ⟨ht, ?_, rfl⟩
  rw [initialise_header_spf_eq, ht]

/-- C4 fails as stated: for `size = 100` (below 512) and for `size = 1000` (not
a multiple of 512) the call does not fail with `InvalidSize`; it ends normally
with a geometry (`total = 0` and `total = 1`, both with `spf = 1`). -/
theorem initialise_header_accepts_invalid_size :
    initialise_header_outcome stale_header 100
        ≠ Except.error geometry_error.InvalidSize
      ∧ initialise_header_outcome stale_header 1000
        ≠ Except.error geometry_error.InvalidSize
      ∧ initialise_header_outcome stale_header 100
        = Except.ok (initialise_header stale_header 100)
      ∧ (initialise_header stale_header 100).total = 0
      ∧ (initialise_header stale_header 100).spf = 1
      ∧ (initialise_header stale_header 1000).total = 1
      ∧ (initialise_header stale_header 1000).spf = 1 := by
  refine ⟨?_, ?_, rfl, by decide, by decide, by decide, by decide⟩
  · intro h; cases h
  · intro h; cases h

/-- C4 (amended): `initialise_header` has no failure path. For every `size`,
also below 512 or not a multiple of 512, the call ends normally with a header
whose `total` is `size / 512` reduced to 32 bits and whose `spf` is
`total / 128 + 1`. -/
theorem initialise_header_never_fails (hdr : header) (size : Nat) :
    ∃ h : header, initialise_header_outcome hdr size = Except.ok h
      ∧ h.total = (size / 512) % 2 ^ 32
      ∧ h.spf = h.total / 128 + 1 :=
  ⟨initialise_header hdr size, rfl, initialise_header_total hdr size,
    initialise_header_spf_eq hdr size⟩

/-- C5 fails as stated: for the 1 MiB request `total = 2048`,
`ceil(2048 * 4 / 512) = 16` and the stored `spf` is 17. -/
theorem spf_is_not_ceiling :
    (initialise_header stale_header 1048576).total = 2048
      ∧ ceil_div ((initialise_header stale_header 1048576).total * 4) 512 = 16
      ∧ (initialise_header stale_header 1048576).spf = 17
      ∧ (initialise_header stale_header 1048576).spf
          ≠ ceil_div ((initialise_header stale_header 1048576).total * 4) 512 := by
  decide

/-- C5 (amended): for every `size` the stored `spf` is
`floor(total * 4 / 512) + 1`; it equals `ceil(total * 4 / 512)` when `total` is
not a multiple of 128 and is one more than that ceiling when it is. -/
theorem spf_versus_ceiling (hdr : header) (size : Nat) :
    (initialise_header hdr size).spf
        = (initialise_header hdr size).total * 4 / 512 + 1
      ∧ (initialise_header hdr size).spf
        = ceil_div ((initialise_header hdr size).total * 4) 512
            + (if (initialise_header hdr size).total % 128 = 0 then 1 else 0) := by
  rw [initialise_header_spf_eq]
  unfold ceil_div
  split <;> omega

/-- C6: for every `size` the FAT size never under-allocates and wastes at most
one sector: `total * 4 <= spf * 512` and `spf * 512 - total * 4 <= 512`; `spf`
is at least 1, and a request of 0 bytes gives `total = 0` with `spf = 1`. -/
theorem spf_over_reservation (hdr : header) (size : Nat) :
    (initialise_header hdr size).total * 4 ≤ (initialise_header hdr size).spf * 512
      ∧ (initialise_header hdr size).spf * 512
          - (initialise_header hdr size).total * 4 ≤ 512
      ∧ (initialise_header hdr size).spf * 512
          ≤ (initialise_header hdr size).total * 4 + 512
      ∧ 1 ≤ (initialise_header hdr size).spf
      ∧ (initialise_header hdr 0).total = 0
      ∧ (initialise_header hdr 0).spf = 1 := by
  have h0 : (initialise_header hdr 0).total = 0 := rfl
  refine ⟨?_, ?_, ?_, ?_, h0, ?_⟩
  · rw [initialise_header_spf_eq]; omega
  · rw [initialise_header_spf_eq]; omega
  · rw [initialise_header_spf_eq]; omega
  · rw [initialise_header_spf_eq]; omega
  · rw [initialise_header_spf_eq, h0]

/-- C7: the members of the packed `header` take 512 bytes, `sign` is its last
member, 2 bytes wide at offset 510 (bytes 510-511); the members of the packed
`dirent` take 128 bytes; and no run of `main` ends in a `BUG_IF`. -/
theorem packed_record_sizes :
    sizeof_header = 512
      ∧ header_fields.getLast? = some ⟨"sign", 2, 1⟩
      ∧ offsetof header_fields "sign" = some 510
      ∧ sizeof_dirent = 128
      ∧ ∀ (argc : Int) (hdr : header) (fuel : Nat),
          main argc hdr fuel ≠ some main_outcome.bug_exit := by
  refine ⟨by decide, by decide, by decide, by decide, ?_⟩
  intro argc hdr fuel
  unfold main
  have h1 : (sizeof_header != 512) = false := by decide
  have h2 : (sizeof_dirent != 128) = false := by decide
  rw [h1, h2]
  simp only [Bool.false_eq_true, if_false]
  split
  · simp
  · split
    · simp
    · split <;> simp

/-- C8: for every `size` and every prior header content, `initialise_header`
sets `bps = 512`, `spc = 1`, `nfats = 1` (so at least 1), `media = 0xFF`,
`sign = 0xAA55`, `boot = [0xEB, 0xFE, 0x90]` and `name` to the 8 bytes of
`"MYFATFS "`. -/
theorem initialise_header_constants (hdr : header) (size : Nat) :
    (initialise_header hdr size).bps = 512
      ∧ (initialise_header hdr size).spc = 1
      ∧ (initialise_header hdr size).nfats = 1
      ∧ 1 ≤ (initialise_header hdr size).nfats
      ∧ (initialise_header hdr size).media = 0xFF
      ∧ (initialise_header hdr size).sign = 0xAA55
      ∧ (initialise_header hdr size).boot = [0xEB, 0xFE, 0x90]
      ∧ (initialise_header hdr size).name = c_string "MYFATFS "
      ∧ (initialise_header hdr size).name
          = [0x4D, 0x59, 0x46, 0x41, 0x54, 0x46, 0x53, 0x20] :=
  ⟨rfl, rfl, rfl, Nat.le_refl 1, rfl, rfl, rfl, rfl, rfl⟩

/-- C9: for every `size` and every prior header content, after
`initialise_header` the fields it does not assign are zero: `rsvd`, `_root`,
`_n0`, `_n1`, `_n2`, `_n3`, `_n4`, `flags`, `ver`, `root`, `fsinfo`, `bkup`,
`rsvd1`, `rsvd2`, `drv`, `rsvd3`, `sig`, `volid` and every byte of `label`
(11 bytes), `type` (8 bytes) and `info` (420 bytes). -/
theorem initialise_header_unassigned_zero (hdr : header) (size : Nat) :
    (initialise_header hdr size).rsvd = 0
      ∧ (initialise_header hdr size)._root = 0
      ∧ (initialise_header hdr size)._n0 = 0
      ∧ (initialise_header hdr size)._n1 = List.replicate 2 0
      ∧ (initialise_header hdr size)._n2 = 0
      ∧ (initialise_header hdr size)._n3 = 0
      ∧ (initialise_header hdr size)._n4 = 0
      ∧ (initialise_header hdr size).flags = 0
      ∧ (initialise_header hdr size).ver = 0
      ∧ (initialise_header hdr size).root = 0
      ∧ (initialise_header hdr size).fsinfo = 0
      ∧ (initialise_header hdr size).bkup = 0
      ∧ (initialise_header hdr size).rsvd1 = 0
      ∧ (initialise_header hdr size).rsvd2 = 0
      ∧ (initialise_header hdr size).drv = 0
      ∧ (initialise_header hdr size).rsvd3 = 0
      ∧ (initialise_header hdr size).sig = 0
      ∧ (initialise_header hdr size).volid = 0
      ∧ (initialise_header hdr size).label = List.replicate 11 0
      ∧ (initialise_header hdr size).type = List.replicate 8 0
      ∧ (initialise_header hdr size).info = List.replicate 420 0 :=
  ⟨rfl, rfl, rfl, rfl, rfl, rfl, rfl, rfl, rfl, rfl, rfl, rfl, rfl, rfl, rfl, rfl,
    rfl, rfl, rfl, rfl, rfl⟩

/-- C10 evaluated on `main`: when the loop of FAT entries has ended, the file
holds the 512 header bytes followed by `4 * total = 4194304` zero bytes, so the
second loop starts writing at offset 4194816; the header just written has
`spf = 8193` and `nfats = 1`, so `spf * 512 * nfats = 4194816` and the offset
the claim gives for the data region is 4195328, 512 bytes further. -/
theorem main_fat_region_shorter_than_spf (hdr : header) (fuel : Nat)
    (hfuel : 1048576 < fuel) :
    main_after_fat hdr fuel
        = some (main_header hdr,
            header_bytes (main_header hdr) ++ List.replicate 4194304 0)
      ∧ (header_bytes (main_header hdr)).length = 512
      ∧ (List.replicate 4194304 (0 : Nat)).length = 4194304
      ∧ (header_bytes (main_header hdr) ++ List.replicate 4194304 0).length = 4194816
      ∧ (main_header hdr).spf * 512 * (main_header hdr).nfats = 4194816
      ∧ 512 + (main_header hdr).spf * 512 * (main_header hdr).nfats = 4195328 := by
  refine ⟨main_after_fat_eq hdr fuel hfuel, main_header_bytes_length hdr,
    List.length_replicate _ _, ?_, ?_, ?_⟩
  · rw [List.length_append, main_header_bytes_length, List.length_replicate]
  · rw [main_header_spf, main_header_nfats]
  · rw [main_header_spf, main_header_nfats]

/-- Witness of the evaluation for C10, with fuel 1048577. -/
theorem main_fat_region_shorter_than_spf_witness :
    main_after_fat stale_header 1048577
        = some (main_header stale_header,
            header_bytes (main_header stale_header) ++ List.replicate 4194304 0)
      ∧ 512 + (main_header stale_header).spf * 512 * (main_header stale_header).nfats
          = 4195328 :=
  ⟨(main_fat_region_shorter_than_spf stale_header 1048577 (by decide)).1,
    (main_fat_region_shorter_than_spf stale_header 1048577 (by decide)).2.2.2.2.2⟩

/-! ## Further facts about the bytes written -/

theorem le_bytes_four (v : Nat) :
    le_bytes 4 v = [v % 256, v / 256 % 256, v / 65536 % 256, v / 16777216 % 256] := by
  simp [le_bytes, List.range_succ]

theorem le_value_le_bytes_four (v : Nat) (hv : v < 2 ^ 32) :
    le_value (le_bytes 4 v) = v := by
  rw [le_bytes_four]
  simp only [le_value, List.foldr]
  omega

theorem flatten_replicate_fatent (n : Nat) :
    (List.replicate n (le_bytes 4 0)).flatten = List.replicate (4 * n) 0 := by
  induction n with
  | zero => rfl
  | succ n ih =>
    rw [List.replicate_succ, List.flatten_cons, ih, Nat.mul_succ, Nat.add_comm,
      List.replicate_add]
    rfl

/-- Without fuel for every loop test the inner loop does not end. -/
theorem main_sector_loop_out_of_fuel (fuel : Nat) :
    ∀ (j : Nat) (file : List Nat), j ≤ 512 → j % 4 = 0 → fuel ≤ (512 - j) / 4 →
      main_sector_loop fuel 0 j file = none := by
  induction fuel with
  | zero => intro j file _ _ _; rfl
  | succ fuel ih =>
    intro j file hj hmod hfuel
    unfold main_sector_loop
    have hlt : j < 512 := by omega
    have hwrap : (j + 4) % 2 ^ 16 = j + 4 := Nat.mod_eq_of_lt (by omega)
    rw [if_pos hlt, hwrap, ih (j + 4) _ (by omega) (by omega) (by omega)]

/-- The bytes of a header, grouped around `total` and `spf`. -/
theorem header_bytes_split (h : header) :
    header_bytes h
      = (h.boot ++ h.name ++ le_bytes 2 h.bps ++ le_bytes 1 h.spc ++ le_bytes 2 h.rsvd
          ++ le_bytes 1 h.nfats ++ le_bytes 2 h._root ++ le_bytes 2 h._n0
          ++ le_bytes 1 h.media ++ h._n1 ++ le_bytes 2 h._n2 ++ le_bytes 2 h._n3
          ++ le_bytes 4 h._n4)
        ++ le_bytes 4 h.total ++ le_bytes 4 h.spf
        ++ (le_bytes 2 h.flags ++ le_bytes 2 h.ver ++ le_bytes 4 h.root
          ++ le_bytes 2 h.fsinfo ++ le_bytes 2 h.bkup ++ le_bytes 8 h.rsvd1
          ++ le_bytes 4 h.rsvd2 ++ le_bytes 1 h.drv ++ le_bytes 1 h.rsvd3
          ++ le_bytes 1 h.sig ++ le_bytes 4 h.volid ++ h.label ++ h.type ++ h.info)
        ++ le_bytes 2 h.sign := by
  simp only [header_bytes, List.append_assoc]

/-- The 32 bytes before `total` in an initialised header. -/
theorem initialise_header_head_bytes (hdr : header) (size : Nat) :
    (initialise_header hdr size).boot ++ (initialise_header hdr size).name
        ++ le_bytes 2 (initialise_header hdr size).bps
        ++ le_bytes 1 (initialise_header hdr size).spc
        ++ le_bytes 2 (initialise_header hdr size).rsvd
        ++ le_bytes 1 (initialise_header hdr size).nfats
        ++ le_bytes 2 (initialise_header hdr size)._root
        ++ le_bytes 2 (initialise_header hdr size)._n0
        ++ le_bytes 1 (initialise_header hdr size).media
        ++ (initialise_header hdr size)._n1
        ++ le_bytes 2 (initialise_header hdr size)._n2
        ++ le_bytes 2 (initialise_header hdr size)._n3
        ++ le_bytes 4 (initialise_header hdr size)._n4
      = [0xEB, 0xFE, 0x90, 0x4D, 0x59, 0x46, 0x41, 0x54, 0x46, 0x53, 0x20,
          0x00, 0x02, 0x01, 0x00, 0x00, 0x01, 0x00, 0x00, 0x00, 0x00, 0xFF,
          0x00, 0x00, 0x00, 0x00, 0x00, 0x00, 0x00, 0x00, 0x00, 0x00] := by
  have h1 : (initialise_header hdr size).boot = [0xEB, 0xFE, 0x90] := rfl
  have h2 : (initialise_header hdr size).name
      = [0x4D, 0x59, 0x46, 0x41, 0x54, 0x46, 0x53, 0x20] := rfl
  have h3 : (initialise_header hdr size).bps = 512 := rfl
  have h4 : (initialise_header hdr size).spc = 1 := rfl
  have h5 : (initialise_header hdr size).rsvd = 0 := rfl
  have h6 : (initialise_header hdr size).nfats = 1 := rfl
  have h7 : (initialise_header hdr size)._root = 0 := rfl
  have h8 : (initialise_header hdr size)._n0 = 0 := rfl
  have h9 : (initialise_header hdr size).media = 0xFF := rfl
  have h10 : (initialise_header hdr size)._n1 = [0, 0] := rfl
  have h11 : (initialise_header hdr size)._n2 = 0 := rfl
  have h12 : (initialise_header hdr size)._n3 = 0 := rfl
  have h13 : (initialise_header hdr size)._n4 = 0 := rfl
  rw [h1, h2, h3, h4, h5, h6, h7, h8, h9, h10, h11, h12, h13]
  decide

set_option maxRecDepth 20000 in
/-- The 470 bytes between `spf` and `sign` in an initialised header. -/
theorem initialise_header_mid_bytes (hdr : header) (size : Nat) :
    le_bytes 2 (initialise_header hdr size).flags
        ++ le_bytes 2 (initialise_header hdr size).ver
        ++ le_bytes 4 (initialise_header hdr size).root
        ++ le_bytes 2 (initialise_header hdr size).fsinfo
        ++ le_bytes 2 (initialise_header hdr size).bkup
        ++ le_bytes 8 (initialise_header hdr size).rsvd1
        ++ le_bytes 4 (initialise_header hdr size).rsvd2
        ++ le_bytes 1 (initialise_header hdr size).drv
        ++ le_bytes 1 (initialise_header hdr size).rsvd3
        ++ le_bytes 1 (initialise_header hdr size).sig
        ++ le_bytes 4 (initialise_header hdr size).volid
        ++ (initialise_header hdr size).label
        ++ (initialise_header hdr size).type
        ++ (initialise_header hdr size).info
      = List.replicate 470 0 := by
  have h1 : (initialise_header hdr size).flags = 0 := rfl
  have h2 : (initialise_header hdr size).ver = 0 := rfl
  have h3 : (initialise_header hdr size).root = 0 := rfl
  have h4 : (initialise_header hdr size).fsinfo = 0 := rfl
  have h5 : (initialise_header hdr size).bkup = 0 := rfl
  have h6 : (initialise_header hdr size).rsvd1 = 0 := rfl
  have h7 : (initialise_header hdr size).rsvd2 = 0 := rfl
  have h8 : (initialise_header hdr size).drv = 0 := rfl
  have h9 : (initialise_header hdr size).rsvd3 = 0 := rfl
  have h10 : (initialise_header hdr size).sig = 0 := rfl
  have h11 : (initialise_header hdr size).volid = 0 := rfl
  have h12 : (initialise_header hdr size).label = List.replicate 11 0 := rfl
  have h13 : (initialise_header hdr size).type = List.replicate 8 0 := rfl
  have h14 : (initialise_header hdr size).info = List.replicate 420 0 := rfl
  rw [h1, h2, h3, h4, h5, h6, h7, h8, h9, h10, h11, h12, h13, h14]
  rfl

/-- The bytes of an initialised header, written out: 32 constant bytes, `total`,
`spf`, 470 zero bytes and the signature. -/
theorem header_bytes_initialise_header (hdr : header) (size : Nat) :
    header_bytes (initialise_header hdr size)
      = [0xEB, 0xFE, 0x90, 0x4D, 0x59, 0x46, 0x41, 0x54, 0x46, 0x53, 0x20,
          0x00, 0x02, 0x01, 0x00, 0x00, 0x01, 0x00, 0x00, 0x00, 0x00, 0xFF,
          0x00, 0x00, 0x00, 0x00, 0x00, 0x00, 0x00, 0x00, 0x00, 0x00]
        ++ le_bytes 4 (initialise_header hdr size).total
        ++ le_bytes 4 (initialise_header hdr size).spf
        ++ List.replicate 470 0 ++ [0x55, 0xAA] := by
  have hs : (initialise_header hdr size).sign = 0xAA55 := rfl
  have hsign : le_bytes 2 (initialise_header hdr size).sign = [0x55, 0xAA] := by
    rw [hs]; decide
  rw [header_bytes_split, initialise_header_head_bytes, initialise_header_mid_bytes, hsign]

/-- The bytes 11-12, 32-35, 36-39 and 510-511 of an initialised header. -/
theorem header_bytes_at_offsets (hdr : header) (size : Nat) :
    ((header_bytes (initialise_header hdr size)).drop 11).take 2 = [0x00, 0x02]
      ∧ ((header_bytes (initialise_header hdr size)).drop 32).take 4
          = le_bytes 4 (initialise_header hdr size).total
      ∧ ((header_bytes (initialise_header hdr size)).drop 36).take 4
          = le_bytes 4 (initialise_header hdr size).spf
      ∧ (header_bytes (initialise_header hdr size)).drop 510 = [0x55, 0xAA] := by
  rw [header_bytes_initialise_header, le_bytes_four, le_bytes_four]
  refine ⟨rfl, rfl, rfl, ?_⟩
  simp only [List.cons_append, List.nil_append, List.drop_succ_cons]
  have h : List.drop 470 (List.replicate 470 0 ++ [0x55, 0xAA]) = [0x55, 0xAA] :=
    List.drop_left' (List.length_replicate _ _)
  exact h

/-- Bytes read inside the first of two appended lists come from that list. -/
theorem drop_take_append (l1 l2 : List Nat) (k n : Nat) (h : k + n ≤ l1.length) :
    ((l1 ++ l2).drop k).take n = (l1.drop k).take n := by
  rw [List.drop_append_of_le_length (by omega),
    List.take_append_of_le_length (by rw [List.length_drop]; omega)]

/-- The bytes 11-12, 32-35, 36-39 and 510-511 of the header `main` builds. -/
theorem main_header_bytes_at_offsets (hdr : header) :
    ((header_bytes (main_header hdr)).drop 11).take 2 = [0x00, 0x02]
      ∧ ((header_bytes (main_header hdr)).drop 32).take 4 = [0x00, 0x00, 0x10, 0x00]
      ∧ ((header_bytes (main_header hdr)).drop 36).take 4 = [0x01, 0x20, 0x00, 0x00]
      ∧ ((header_bytes (main_header hdr)).drop 510).take 2 = [0x55, 0xAA] := by
  obtain ⟨h1, h2, h3, h4⟩ := header_bytes_at_offsets hdr ((1 <<< 20) * (1 <<< 9))
  have ht : le_bytes 4 (main_header hdr).total = [0x00, 0x00, 0x10, 0x00] := by
    rw [main_header_total]; decide
  have hs : le_bytes 4 (main_header hdr).spf = [0x01, 0x20, 0x00, 0x00] := by
    rw [main_header_spf]; decide
  refine ⟨h1, h2.trans ht, h3.trans hs, ?_⟩
  show List.take 2 (List.drop 510 (header_bytes (initialise_header hdr ((1 <<< 20) * (1 <<< 9))))) = _
  rw [h4]
  rfl

/-! ## The claims about the image -/

/-- C11: in the image `main` writes, the 512 header bytes are followed by the
output of the loop of lines 95-96, which is exactly `total` FAT entries (`total`
as in the header just written, 1048576) of 4 bytes each, every one the
encoding of the value 0; the bytes of the second loop come after them. -/
theorem main_fat_entries_all_free (argc : Int) (hdr : header) (fuel : Nat)
    (hargc : 2 ≤ argc) (hfuel : 1048576 + 129 ≤ fuel) :
    main_after_fat hdr fuel
        = some (main_header hdr,
            header_bytes (main_header hdr)
              ++ (List.replicate (main_header hdr).total (le_bytes 4 0)).flatten)
      ∧ main argc hdr fuel
        = some (main_outcome.written
            (header_bytes (main_header hdr)
              ++ (List.replicate (main_header hdr).total (le_bytes 4 0)).flatten
              ++ List.replicate 536870912 0))
      ∧ (header_bytes (main_header hdr)).length = 512
      ∧ (List.replicate (main_header hdr).total (le_bytes 4 0)).length
          = (main_header hdr).total
      ∧ (main_header hdr).total = 1048576
      ∧ (∀ e ∈ List.replicate (main_header hdr).total (le_bytes 4 0),
          e = [0, 0, 0, 0] ∧ e.length = 4 ∧ le_value e = 0) := by
  have hflat : (List.replicate (main_header hdr).total (le_bytes 4 0)).flatten
      = List.replicate 4194304 0 := by
    rw [flatten_replicate_fatent, main_header_total]
  refine ⟨?_, ?_, main_header_bytes_length hdr, List.length_replicate _ _,
    main_header_total hdr, ?_⟩
  · rw [hflat]
    exact main_after_fat_eq hdr fuel (by omega)
  · rw [hflat]
    exact main_eq argc hdr fuel hargc hfuel
  · intro e he
    rw [List.eq_of_mem_replicate he]
    exact ⟨rfl, rfl, rfl⟩

/-- Witness of C11: `main` with `argc = 2` and fuel 1048705. -/
theorem main_fat_entries_all_free_witness :
    main_after_fat stale_header 1048705
        = some (main_header stale_header,
            header_bytes (main_header stale_header)
              ++ (List.replicate (main_header stale_header).total (le_bytes 4 0)).flatten)
      ∧ (List.replicate (main_header stale_header).total (le_bytes 4 0)).length
          = (main_header stale_header).total :=
  ⟨(main_fat_entries_all_free 2 stale_header 1048705 (by decide) (by decide)).1,
    (main_fat_entries_all_free 2 stale_header 1048705 (by decide) (by decide)).2.2.2.1⟩

/-- C12: for every 32-bit `total`, the loops of lines 97-101 end (given fuel for
their loop tests) and append exactly `total * 512` bytes, all zero; one run of
the inner loop ends after exactly 128 writes of the four zero bytes of `t`
(129 loop tests suffice, 128 do not); in the image of `main` these bytes come
after the FAT entries, `total * 512 = 536870912` of them. -/
theorem main_data_region_zero (total fuel : Nat) (file : List Nat)
    (argc : Int) (hdr : header) (mfuel : Nat)
    (htotal : total < 2 ^ 32) (hfuel : total + 129 ≤ fuel)
    (hargc : 2 ≤ argc) (hmfuel : 1048576 + 129 ≤ mfuel) :
    main_data_loop fuel total 0 0 file
        = some (file ++ List.replicate (total * 512) 0)
      ∧ (List.replicate (total * 512) 0).length = total * 512
      ∧ (∀ b ∈ List.replicate (total * 512) 0, b = 0)
      ∧ main_sector_loop 129 0 0 file
        = some (file ++ (List.replicate 128 (le_bytes 4 0)).flatten)
      ∧ main_sector_loop 128 0 0 file = none
      ∧ le_bytes 4 0 = [0, 0, 0, 0]
      ∧ main argc hdr mfuel
        = some (main_outcome.written
            (header_bytes (main_header hdr) ++ List.replicate 4194304 0
              ++ List.replicate ((main_header hdr).total * 512) 0))
      ∧ (main_header hdr).total * 512 = 536870912 := by
  have hmul : (main_header hdr).total * 512 = 536870912 := by
    rw [main_header_total]
  refine ⟨?_, List.length_replicate _ _, fun b hb => List.eq_of_mem_replicate hb,
    ?_, main_sector_loop_out_of_fuel 128 0 file (by omega) (by omega) (by omega),
    rfl, ?_, hmul⟩
  · rw [main_data_loop_eq fuel total htotal 0 file (by omega) (by omega),
      Nat.sub_zero, Nat.mul_comm]
  · rw [main_sector_loop_eq 129 0 file (by omega) (by omega) (by omega),
      flatten_replicate_fatent]
  · rw [hmul]
    exact main_eq argc hdr mfuel hargc hmfuel

/-- Witness of C12: three sectors appended to an empty file, and `main` with
`argc = 2`. -/
theorem main_data_region_zero_witness :
    main_data_loop 132 3 0 0 [] = some ([] ++ List.replicate (3 * 512) 0)
      ∧ main_sector_loop 128 0 0 [] = none
      ∧ main 2 stale_header 1048705
        = some (main_outcome.written
            (header_bytes (main_header stale_header) ++ List.replicate 4194304 0
              ++ List.replicate ((main_header stale_header).total * 512) 0)) :=
  ⟨(main_data_region_zero 3 132 [] 2 stale_header 1048705 (by decide) (by decide)
      (by decide) (by decide)).1,
    (main_data_region_zero 3 132 [] 2 stale_header 1048705 (by decide) (by decide)
      (by decide) (by decide)).2.2.2.2.1,
    (main_data_region_zero 3 132 [] 2 stale_header 1048705 (by decide) (by decide)
      (by decide) (by decide)).2.2.2.2.2.2.1⟩

/-- C13: the first 512 bytes of the image `main` writes are the bytes of the
header it has initialised, members in declaration order and multi-byte integers
least significant byte first (the object representation on little-endian
targets): in the image, bytes 11-12 are 0x00 0x02 (`bps = 512`), bytes 32-35
are 00 00 10 00 (`total = 1048576`), bytes 36-39 are 01 20 00 00
(`spf = 8193`) and bytes 510-511 are 0x55 0xAA. For every `size` the 512 bytes
that line 93 writes for the header of `initialise_header` have `bps` at offset
11 as 0x00 0x02, `total` at offset 32 and `spf` at offset 36, each as 4 bytes
least significant first that read back to the stored value, and `sign` at
offset 510 as 0x55 0xAA. -/
theorem header_bytes_little_endian (hdr : header) (size : Nat)
    (argc : Int) (fuel : Nat) (hargc : 2 ≤ argc) (hfuel : 1048576 + 129 ≤ fuel) :
    (∃ image : List Nat,
        main argc hdr fuel = some (main_outcome.written image)
          ∧ image.take 512 = header_bytes (main_header hdr)
          ∧ (image.drop 11).take 2 = [0x00, 0x02]
          ∧ (image.drop 32).take 4 = [0x00, 0x00, 0x10, 0x00]
          ∧ le_value ((image.drop 32).take 4) = (main_header hdr).total
          ∧ (image.drop 36).take 4 = [0x01, 0x20, 0x00, 0x00]
          ∧ le_value ((image.drop 36).take 4) = (main_header hdr).spf
          ∧ (image.drop 510).take 2 = [0x55, 0xAA])
      ∧ fwrite (header_bytes (initialise_header hdr size)) 512 1 []
        = header_bytes (initialise_header hdr size)
      ∧ (header_bytes (initialise_header hdr size)).length = 512
      ∧ offsetof header_fields "bps" = some 11
      ∧ offsetof header_fields "total" = some 32
      ∧ offsetof header_fields "spf" = some 36
      ∧ offsetof header_fields "sign" = some 510
      ∧ ((header_bytes (initialise_header hdr size)).drop 11).take 2 = [0x00, 0x02]
      ∧ ((header_bytes (initialise_header hdr size)).drop 32).take 4
          = [(initialise_header hdr size).total % 256,
              (initialise_header hdr size).total / 256 % 256,
              (initialise_header hdr size).total / 65536 % 256,
              (initialise_header hdr size).total / 16777216 % 256]
      ∧ le_value (((header_bytes (initialise_header hdr size)).drop 32).take 4)
          = (initialise_header hdr size).total
      ∧ ((header_bytes (initialise_header hdr size)).drop 36).take 4
          = [(initialise_header hdr size).spf % 256,
              (initialise_header hdr size).spf / 256 % 256,
              (initialise_header hdr size).spf / 65536 % 256,
              (initialise_header hdr size).spf / 16777216 % 256]
      ∧ le_value (((header_bytes (initialise_header hdr size)).drop 36).take 4)
          = (initialise_header hdr size).spf
      ∧ (header_bytes (initialise_header hdr size)).drop 510 = [0x55, 0xAA] := by
  obtain ⟨hbps, htotal, hspf, hsign⟩ := header_bytes_at_offsets hdr size
  obtain ⟨mbps, mtotal, mspf, msign⟩ := main_header_bytes_at_offsets hdr
  have hlen := main_header_bytes_length hdr
  have ht : (initialise_header hdr size).total < 2 ^ 32 := by
    rw [initialise_header_total]; omega
  have hs : (initialise_header hdr size).spf < 2 ^ 32 := by
    rw [initialise_header_spf_eq]; omega
  refine ⟨⟨_, main_eq argc hdr fuel hargc hfuel, ?_, ?_, ?_, ?_, ?_, ?_, ?_⟩,
    fwrite_header _ (initialise_header_bytes_length hdr size),
    initialise_header_bytes_length hdr size, by decide, by decide, by decide,
    by decide, hbps, ?_, ?_, ?_, ?_, hsign⟩
  · rw [List.append_assoc]
    exact List.take_left' hlen
  · rw [List.append_assoc, drop_take_append _ _ 11 2 (by omega), mbps]
  · rw [List.append_assoc, drop_take_append _ _ 32 4 (by omega), mtotal]
  · rw [List.append_assoc, drop_take_append _ _ 32 4 (by omega), mtotal,
      main_header_total]
    rfl
  · rw [List.append_assoc, drop_take_append _ _ 36 4 (by omega), mspf]
  · rw [List.append_assoc, drop_take_append _ _ 36 4 (by omega), mspf,
      main_header_spf]
    rfl
  · rw [List.append_assoc, drop_take_append _ _ 510 2 (by omega), msign]
  · rw [htotal, le_bytes_four]
  · rw [htotal, le_value_le_bytes_four _ ht]
  · rw [hspf, le_bytes_four]
  · rw [hspf, le_value_le_bytes_four _ hs]

/-- Witness of C13: `main` with `argc = 2` and fuel 1048705, and the header of
the 1 MiB request. -/
theorem header_bytes_little_endian_witness :
    (∃ image : List Nat,
        main 2 stale_header 1048705 = some (main_outcome.written image)
          ∧ image.take 512 = header_bytes (main_header stale_header)
          ∧ (image.drop 11).take 2 = [0x00, 0x02]
          ∧ (image.drop 32).take 4 = [0x00, 0x00, 0x10, 0x00]
          ∧ le_value ((image.drop 32).take 4) = (main_header stale_header).total
          ∧ (image.drop 36).take 4 = [0x01, 0x20, 0x00, 0x00]
          ∧ le_value ((image.drop 36).take 4) = (main_header stale_header).spf
          ∧ (image.drop 510).take 2 = [0x55, 0xAA])
      ∧ ((header_bytes (initialise_header stale_header 1048576)).drop 11).take 2
          = [0x00, 0x02]
      ∧ (header_bytes (initialise_header stale_header 1048576)).drop 510
          = [0x55, 0xAA] :=
  ⟨(header_bytes_little_endian stale_header 1048576 2 1048705 (by decide)
      (by decide)).1,
    (header_bytes_little_endian stale_header 1048576 2 1048705 (by decide)
      (by decide)).2.2.2.2.2.2.2.1,
    (header_bytes_little_endian stale_header 1048576 2 1048705 (by decide)
      (by decide)).2.2.2.2.2.2.2.2.2.2.2.2⟩

/-- C14: the result of `initialise_header` depends on `size` only. For any two
prior header contents the resulting headers, and so their 512 bytes, are
identical, and a second call with the same `size` on the result changes
nothing. -/
theorem initialise_header_deterministic (h1 h2 : header) (size : Nat) :
    initialise_header h1 size = initialise_header h2 size
      ∧ header_bytes (initialise_header h1 size)
          = header_bytes (initialise_header h2 size)
      ∧ (header_bytes (initialise_header h1 size)).length = 512
      ∧ initialise_header (initialise_header h1 size) size
          = initialise_header h1 size :=
  ⟨rfl, rfl, initialise_header_bytes_length h1 size, rfl⟩

/-- C15 evaluated on the code: for every `size` and prior header content,
`initialise_header` leaves `sig` at the 0 of the `memset`, not at the 0x29 its
declaration documents. -/
theorem initialise_header_sig_zero (hdr : header) (size : Nat) :
    (initialise_header hdr size).sig = 0
      ∧ (initialise_header hdr size).sig ≠ 0x29 := by
  have h : (initialise_header hdr size).sig = 0 := rfl
  rw [h]
  exact ⟨rfl, by decide⟩

/-- C16: `initialise_header` rounds the request down to whole sectors. For every
`size` the header for `size` is the header for `size - size % 512`; and every
request `small` below 512 gives `total = 0` and `spf = 1`. -/
theorem initialise_header_rounds_down (hdr : header) (size small : Nat)
    (hsmall : small < 512) :
    initialise_header hdr size = initialise_header hdr (size - size % 512)
      ∧ (initialise_header hdr small).total = 0
      ∧ (initialise_header hdr small).spf = 1 := by
  have hdiv : (size - size % 512) / 512 = size / 512 := by omega
  have h0 : (initialise_header hdr small).total = 0 := by
    rw [initialise_header_total]; omega
  refine ⟨?_, h0, ?_⟩
  · simp only [initialise_header, hdiv]
  · rw [initialise_header_spf_eq, h0]

/-- Witness of C16: requests of 1000 and of 100 bytes. -/
theorem initialise_header_rounds_down_witness :
    initialise_header stale_header 1000
        = initialise_header stale_header (1000 - 1000 % 512)
      ∧ (initialise_header stale_header 100).total = 0
      ∧ (initialise_header stale_header 100).spf = 1 :=
  initialise_header_rounds_down stale_header 1000 100 (by decide)

/-- C17: the image is larger than the request. For every 32-bit `total`, the
loops of lines 95-101 started on the 512 bytes `sb` of a superblock leave
`512 + 4 * total + 512 * total` bytes; the image `main` writes for its request
of `2 ^ 29` bytes (`total = 1048576`, `spf = 8193`) has 541065728 bytes, the
request plus the 512 bytes of the superblock plus 8192 sectors of FAT. -/
theorem main_image_length (total fuel : Nat) (sb : List Nat)
    (argc : Int) (hdr : header) (mfuel : Nat)
    (htotal : total < 2 ^ 32) (hfuel : total + 129 ≤ fuel) (hsb : sb.length = 512)
    (hargc : 2 ≤ argc) (hmfuel : 1048576 + 129 ≤ mfuel) :
    main_fat_loop fuel total 0 0 sb = some (sb ++ List.replicate (4 * total) 0)
      ∧ main_data_loop fuel total 0 0 (sb ++ List.replicate (4 * total) 0)
        = some (sb ++ List.replicate (4 * total) 0 ++ List.replicate (512 * total) 0)
      ∧ (sb ++ List.replicate (4 * total) 0 ++ List.replicate (512 * total) 0).length
        = 512 + 4 * total + 512 * total
      ∧ main argc hdr mfuel
        = some (main_outcome.written
            (header_bytes (main_header hdr) ++ List.replicate 4194304 0
              ++ List.replicate 536870912 0))
      ∧ (header_bytes (main_header hdr) ++ List.replicate 4194304 0
            ++ List.replicate 536870912 0).length = 541065728
      ∧ (main_header hdr).total = 1048576
      ∧ (main_header hdr).spf = 8193
      ∧ 541065728
          = 512 + 4 * (main_header hdr).total + 512 * (main_header hdr).total
      ∧ 541065728 = (1 <<< 20) * (1 <<< 9) + 512 + 8192 * 512
      ∧ (1 <<< 20) * (1 <<< 9) < 541065728 := by
  refine ⟨?_, ?_, ?_, main_eq argc hdr mfuel hargc hmfuel, ?_,
    main_header_total hdr, main_header_spf hdr, ?_, by decide, by decide⟩
  · rw [main_fat_loop_eq fuel total htotal 0 sb (by omega) (by omega), Nat.sub_zero]
  · rw [main_data_loop_eq fuel total htotal 0 _ (by omega) (by omega), Nat.sub_zero]
  · rw [List.length_append, List.length_append, List.length_replicate,
      List.length_replicate, hsb]
  · rw [List.length_append, List.length_append, List.length_replicate,
      List.length_replicate, main_header_bytes_length]
  · rw [main_header_total]

/-- Witness of C17: two sectors after the superblock of a 1024-byte request,
and `main` with `argc = 2`. -/
theorem main_image_length_witness :
    main_fat_loop 131 2 0 0 (header_bytes (initialise_header stale_header 1024))
        = some (header_bytes (initialise_header stale_header 1024)
            ++ List.replicate (4 * 2) 0)
      ∧ (header_bytes (main_header stale_header) ++ List.replicate 4194304 0
            ++ List.replicate 536870912 0).length = 541065728 :=
  ⟨(main_image_length 2 131 (header_bytes (initialise_header stale_header 1024))
      2 stale_header 1048705 (by decide) (by decide)
      (initialise_header_bytes_length stale_header 1024) (by decide) (by decide)).1,
    (main_image_length 2 131 (header_bytes (initialise_header stale_header 1024))
      2 stale_header 1048705 (by decide) (by decide)
      (initialise_header_bytes_length stale_header 1024) (by decide) (by decide)).2.2.2.2.1⟩

end MyFat
